import Mathlib

/-!
# SPI memory test task (`SPI Memory/spimemtest.c`)

Shallow embedding of the seven read-back checks of `spimemtest.c` and of the
task `prvspimemtestTask` that runs them, followed by the properties proved
about them.

Conventions of the embedding.

* A C array is a function from index to element value; only the indices below
  the declared size are ever used.
* `spimemtest.c` uses, without declaring them, the objects `i`, `test_page1`,
  `test_page2`, `spi_test_buffer`, `spi_mem_buff`, `spimem_buffer` and
  `spi_mem_buff_sect_num` inside the seven `testN_...` functions.  They are
  file-scope objects declared by the included headers; their contents on entry
  are unconstrained and they are the fields of `World`.
* `prvspimemtestTask` declares its own locals `i`, `test_page1`, `test_page2`
  and `spi_test_buffer` (lines 114-118).  Inside that function these names
  denote the locals, kept in `Frame`; the `testN_...` functions are separate
  functions and see the file-scope objects.
* The SPI memory driver and the pin number `LED3_GPIO` come from headers that
  are not part of the file; they are the parameter `Env`.  A driver call gets
  the driver state and the arguments and gives back a status, the new driver
  state and, for a read, the new contents of the destination buffer; it
  assigns no other object of the harness.
* The file-scope `i` is taken to be wide enough for the bound 4096, like the
  `uint32_t i` of the task, so every comparison loop ends with `i` at its bound.
* `configASSERT` at line 109 is taken to hold, and the two scheduler calls at
  the end of a pass (lines 153-154) only suspend the task.
* `calls` and `toggles` are ghost logs: the driver requests issued so far and
  the pins handed to `pio_toggle_pin` so far.  What the driver itself receives
  is read off `recording E`, the driver `E` with a recorder in front of it that
  notes the arguments of every call; what the chip then holds is read off the
  reference flash chip `flashEnv`.
* The local `z` of every check is read without having been initialised; its
  value on entry is an explicit argument of the check.
-/

namespace SpiMemTest

/-! ## Data model -/

/-- One request issued to the SPI memory driver: the primitive, the chip, the
address or sector index and, for page transfers, the length. -/
inductive Call where
  | write (chip addr size : Nat)
  | read (chip addr size : Nat)
  | erase (chip sect : Nat)
  | writeBack (chip sect : Nat)
  deriving DecidableEq

/-- The collaborators of the harness that the file only calls: the four driver
primitives of `spimem.h` over a driver state `σ`, and the pin number
`LED3_GPIO`.  A status is the C value the primitive returns. -/
structure Env (σ : Type) where
  /-- Pin number `LED3_GPIO` -/
  LED3 : Nat
  /-- Call `spimem_write(chip, addr, data, size)` -/
  spimem_write : Nat → Nat → (Nat → Nat) → Nat → σ → Int × σ
  /-- Call `spimem_read(chip, addr, buf, size)`; the old contents of `buf` go in,
  the new contents come out -/
  spimem_read : Nat → Nat → (Nat → Nat) → Nat → σ → Int × (Nat → Nat) × σ
  /-- Call `erase_sector_on_chip(chip, sect)` -/
  erase_sector_on_chip : Nat → Nat → σ → Int × σ
  /-- Call `write_sector_back_to_spimem(chip)`; it works on the file-scope
  `spi_mem_buff_sect_num` and `spi_mem_buff`, handed over explicitly -/
  write_sector_back_to_spimem : Nat → Nat → (Nat → Nat) → σ → Int × σ

/-- File-scope state seen by the `testN_...` functions, the pin levels, the
driver state and the two ghost logs. -/
structure World (σ : Type) where
  drv : σ
  i : Nat
  test_page1 : Nat → Nat
  test_page2 : Nat → Nat
  spi_test_buffer : Nat → Nat
  spi_mem_buff : Nat → Nat
  spimem_buffer : Nat → Nat
  spi_mem_buff_sect_num : Nat
  pins : Nat → Bool
  calls : List Call
  toggles : List Nat

/-- Locals of `prvspimemtestTask` that its initialisation loops assign
(line 115: `i`; line 116: `test_page1`, `test_page2`). -/
structure Frame where
  i : Nat
  test_page1 : Nat → Nat
  test_page2 : Nat → Nat

/-- Locals `x`, `y`, `z` of a check, as they stand when the final `if` is
reached. -/
structure Locals where
  x : Int
  y : Int
  z : Int

/-! ## Language-level helpers -/

/-- Array assignment `a[i] = v`. -/
def store (a : Nat → Nat) (i v : Nat) : Nat → Nat :=
  fun k => if k = i then v else a k

/-- Loop `for (i = 0; i < n; i++) body(i)` whose body does not assign `i`:
runs `body 0`, then `body 1`, up to `body (n - 1)`. -/
def for_loop {α : Type} (body : Nat → α → α) : Nat → α → α
  | 0, s => s
  | n + 1, s => body n (for_loop body n s)

/-- Conversion of a status to `uint32_t` (the assignment `temp = ...`). -/
def toU32 (r : Int) : Nat := (r % 4294967296).toNat

/-- Conversion `(int)temp` of a `uint32_t` to a 32-bit `int` (two's complement
wrap-around, as on the target). -/
def toI32 (n : Nat) : Int :=
  if n % 4294967296 < 2147483648 then ((n % 4294967296 : Nat) : Int)
  else ((n % 4294967296 : Nat) : Int) - 4294967296

/-- Library call `pio_toggle_pin(pin)`: flips the level of the pin. -/
def pio_toggle_pin {σ : Type} (pin : Nat) (w : World σ) : World σ :=
  { w with
    pins := fun p => if p = pin then !(w.pins p) else w.pins p
    toggles := w.toggles ++ [pin] }

/-! ## The seven checks -/

/-- Lines 161-171 (and, with another `rand_addr`, 252-262, 273-283, 294-304):
write `test_page1`, read back into `test_page2`, compare 256 bytes.  The
argument `z` is the indeterminate initial value of the local `z`. -/
def page_check_body {σ : Type} (E : Env σ) (spi_chip rand_addr : Nat) (z : Int)
    (w : World σ) : Locals × World σ :=
  let r1 := E.spimem_write spi_chip rand_addr w.test_page1 256 w.drv
  let x := r1.1
  let w1 := { w with drv := r1.2, calls := w.calls ++ [Call.write spi_chip rand_addr 256] }
  let r2 := E.spimem_read spi_chip rand_addr w1.test_page2 256 w1.drv
  let y := r2.1
  let w2 := { w1 with
    drv := r2.2.2
    test_page2 := r2.2.1
    calls := w1.calls ++ [Call.read spi_chip rand_addr 256] }
  let z := for_loop (fun i z => if w2.test_page1 i ≠ w2.test_page2 i then 1 else z) 256 z
  (⟨x, y, z⟩, { w2 with i := 256 })

/-- Lines 182-194 and 229-241: erase sector 0, read 4096 bytes from address 0
into `spi_test_buffer`, compare with `spimem_buffer`. -/
def sector_erase_body {σ : Type} (E : Env σ) (spi_chip : Nat) (z : Int)
    (w : World σ) : Locals × World σ :=
  let rand_addr := 0x00000
  let r1 := E.erase_sector_on_chip spi_chip 0 w.drv
  let temp := toU32 r1.1
  let x := toI32 temp
  let w1 := { w with drv := r1.2, calls := w.calls ++ [Call.erase spi_chip 0] }
  let r2 := E.spimem_read spi_chip rand_addr w1.spi_test_buffer 4096 w1.drv
  let y := r2.1
  let w2 := { w1 with
    drv := r2.2.2
    spi_test_buffer := r2.2.1
    calls := w1.calls ++ [Call.read spi_chip rand_addr 4096] }
  let z := for_loop (fun i z => if w2.spimem_buffer i ≠ w2.spi_test_buffer i then 1 else z) 4096 z
  (⟨x, y, z⟩, { w2 with i := 4096 })

/-- Lines 161-171 of `test1_SimpleWriteAndRead`. -/
def test1_SimpleWriteAndRead_body {σ : Type} (E : Env σ) (spi_chip : Nat) (z : Int)
    (w : World σ) : Locals × World σ :=
  page_check_body E spi_chip 0x00000 z w

/-- Function `test1_SimpleWriteAndRead` (lines 159-178). -/
def test1_SimpleWriteAndRead {σ : Type} (E : Env σ) (spi_chip : Nat) (z : Int)
    (w : World σ) : World σ :=
  let r := test1_SimpleWriteAndRead_body E spi_chip z w
  if r.1.x ≠ -1 ∨ r.1.y ≠ -1 ∨ r.1.z ≠ 1 then pio_toggle_pin E.LED3 r.2 else r.2

/-- Lines 182-194 of `test2_SectorEraseAndRead`. -/
def test2_SectorEraseAndRead_body {σ : Type} (E : Env σ) (spi_chip : Nat) (z : Int)
    (w : World σ) : Locals × World σ :=
  sector_erase_body E spi_chip z w

/-- Function `test2_SectorEraseAndRead` (lines 180-201). -/
def test2_SectorEraseAndRead {σ : Type} (E : Env σ) (spi_chip : Nat) (z : Int)
    (w : World σ) : World σ :=
  let r := test2_SectorEraseAndRead_body E spi_chip z w
  if r.1.x ≠ -1 ∨ r.1.y ≠ -1 ∨ r.1.z ≠ 1 then pio_toggle_pin E.LED3 r.2 else r.2

/-- Lines 205-218 of `test3_SectorWriteAndRead`: set the sector number to 0,
write `spi_mem_buff` back to the chip, read 4096 bytes from address 0 into
`spi_test_buffer`, compare with `spimem_buffer`. -/
def test3_SectorWriteAndRead_body {σ : Type} (E : Env σ) (spi_chip : Nat) (z : Int)
    (w : World σ) : Locals × World σ :=
  let rand_addr := 0x00000
  let w0 := { w with spi_mem_buff_sect_num := 0 }
  let r1 := E.write_sector_back_to_spimem spi_chip w0.spi_mem_buff_sect_num w0.spi_mem_buff w0.drv
  let temp := toU32 r1.1
  let x := toI32 temp
  let w1 := { w0 with
    drv := r1.2
    calls := w0.calls ++ [Call.writeBack spi_chip w0.spi_mem_buff_sect_num] }
  let r2 := E.spimem_read spi_chip rand_addr w1.spi_test_buffer 4096 w1.drv
  let y := r2.1
  let w2 := { w1 with
    drv := r2.2.2
    spi_test_buffer := r2.2.1
    calls := w1.calls ++ [Call.read spi_chip rand_addr 4096] }
  let z := for_loop (fun i z => if w2.spimem_buffer i ≠ w2.spi_test_buffer i then 1 else z) 4096 z
  (⟨x, y, z⟩, { w2 with i := 4096 })

/-- Function `test3_SectorWriteAndRead` (lines 203-225). -/
def test3_SectorWriteAndRead {σ : Type} (E : Env σ) (spi_chip : Nat) (z : Int)
    (w : World σ) : World σ :=
  let r := test3_SectorWriteAndRead_body E spi_chip z w
  if r.1.x ≠ -1 ∨ r.1.y ≠ -1 ∨ r.1.z ≠ 1 then pio_toggle_pin E.LED3 r.2 else r.2

/-- Lines 229-241 of `test4_SectorEraseAndRead`. -/
def test4_SectorEraseAndRead_body {σ : Type} (E : Env σ) (spi_chip : Nat) (z : Int)
    (w : World σ) : Locals × World σ :=
  sector_erase_body E spi_chip z w

/-- Function `test4_SectorEraseAndRead` (lines 227-248). -/
def test4_SectorEraseAndRead {σ : Type} (E : Env σ) (spi_chip : Nat) (z : Int)
    (w : World σ) : World σ :=
  let r := test4_SectorEraseAndRead_body E spi_chip z w
  if r.1.x ≠ -1 ∨ r.1.y ≠ -1 ∨ r.1.z ≠ 1 then pio_toggle_pin E.LED3 r.2 else r.2

/-- Lines 252-262 of `test5_BoundaryWriteAndRead` (`rand_addr = 0x0000F`). -/
def test5_BoundaryWriteAndRead_body {σ : Type} (E : Env σ) (spi_chip : Nat) (z : Int)
    (w : World σ) : Locals × World σ :=
  page_check_body E spi_chip 0x0000F z w

/-- Function `test5_BoundaryWriteAndRead` (lines 250-269). -/
def test5_BoundaryWriteAndRead {σ : Type} (E : Env σ) (spi_chip : Nat) (z : Int)
    (w : World σ) : World σ :=
  let r := test5_BoundaryWriteAndRead_body E spi_chip z w
  if r.1.x ≠ -1 ∨ r.1.y ≠ -1 ∨ r.1.z ≠ 1 then pio_toggle_pin E.LED3 r.2 else r.2

/-- Lines 273-283 of `test6_WriteDirtyPageAndRead` (`rand_addr = 0x00000`). -/
def test6_WriteDirtyPageAndRead_body {σ : Type} (E : Env σ) (spi_chip : Nat) (z : Int)
    (w : World σ) : Locals × World σ :=
  page_check_body E spi_chip 0x00000 z w

/-- Function `test6_WriteDirtyPageAndRead` (lines 271-290). -/
def test6_WriteDirtyPageAndRead {σ : Type} (E : Env σ) (spi_chip : Nat) (z : Int)
    (w : World σ) : World σ :=
  let r := test6_WriteDirtyPageAndRead_body E spi_chip z w
  if r.1.x ≠ -1 ∨ r.1.y ≠ -1 ∨ r.1.z ≠ 1 then pio_toggle_pin E.LED3 r.2 else r.2

/-- Lines 294-304 of `test7_WriteDirtyPageAndReadAtBoundary`
(`rand_addr = 0x00000`). -/
def test7_WriteDirtyPageAndReadAtBoundary_body {σ : Type} (E : Env σ) (spi_chip : Nat)
    (z : Int) (w : World σ) : Locals × World σ :=
  page_check_body E spi_chip 0x00000 z w

/-- Function `test7_WriteDirtyPageAndReadAtBoundary` (lines 292-311). -/
def test7_WriteDirtyPageAndReadAtBoundary {σ : Type} (E : Env σ) (spi_chip : Nat)
    (z : Int) (w : World σ) : World σ :=
  let r := test7_WriteDirtyPageAndReadAtBoundary_body E spi_chip z w
  if r.1.x ≠ -1 ∨ r.1.y ≠ -1 ∨ r.1.z ≠ 1 then pio_toggle_pin E.LED3 r.2 else r.2

/-! ## The task -/

/-- Initialisation loops of `prvspimemtestTask` (lines 120-133).  The first
loop assigns the file-scope `spi_mem_buff`; the other two assign the locals
`test_page1` and `test_page2` of the task. -/
def prvspimemtestTask_init {σ : Type} (f : Frame) (w : World σ) : Frame × World σ :=
  let w1 := for_loop
    (fun i (w : World σ) => { w with spi_mem_buff := store w.spi_mem_buff i ((i % 256) % 256) })
    4096 w
  let f1 := for_loop
    (fun i (f : Frame) => { f with test_page1 := store f.test_page1 i (i % 256) }) 256 f
  let f2 := for_loop
    (fun i (f : Frame) => { f with test_page2 := store f.test_page2 i 0 }) 256 f1
  ({ f2 with i := 256 }, w1)

/-- One pass through the body of the `for( ;; )` loop (lines 139-154).  `z k`
is the indeterminate initial `z` of check `k`.  The two scheduler calls at the
end only suspend the task. -/
def loop_body {σ : Type} (E : Env σ) (z : Nat → Int) (w : World σ) : World σ :=
  let w := test1_SimpleWriteAndRead E 2 (z 1) w
  let w := test2_SectorEraseAndRead E 2 (z 2) w
  let w := test3_SectorWriteAndRead E 2 (z 3) w
  let w := test4_SectorEraseAndRead E 2 (z 4) w
  let w := test5_BoundaryWriteAndRead E 2 (z 5) w
  let w := test6_WriteDirtyPageAndRead E 2 (z 6) w
  let w := test7_WriteDirtyPageAndReadAtBoundary E 2 (z 7) w
  w

/-- World in which check 6 of a pass is called: lines 139-147 have run. -/
def world_at_check6 {σ : Type} (E : Env σ) (z : Nat → Int) (w : World σ) : World σ :=
  let w := test1_SimpleWriteAndRead E 2 (z 1) w
  let w := test2_SectorEraseAndRead E 2 (z 2) w
  let w := test3_SectorWriteAndRead E 2 (z 3) w
  let w := test4_SectorEraseAndRead E 2 (z 4) w
  let w := test5_BoundaryWriteAndRead E 2 (z 5) w
  w

/-- The seven checks, in the order the loop runs them. -/
inductive Check where
  | test1 | test2 | test3 | test4 | test5 | test6 | test7
  deriving DecidableEq

/-- The statements of a check in front of its final conditional. -/
def Check.body {σ : Type} (c : Check) (E : Env σ) (spi_chip : Nat) (z : Int)
    (w : World σ) : Locals × World σ :=
  match c with
  | .test1 => test1_SimpleWriteAndRead_body E spi_chip z w
  | .test2 => test2_SectorEraseAndRead_body E spi_chip z w
  | .test3 => test3_SectorWriteAndRead_body E spi_chip z w
  | .test4 => test4_SectorEraseAndRead_body E spi_chip z w
  | .test5 => test5_BoundaryWriteAndRead_body E spi_chip z w
  | .test6 => test6_WriteDirtyPageAndRead_body E spi_chip z w
  | .test7 => test7_WriteDirtyPageAndReadAtBoundary_body E spi_chip z w

/-- The whole check. -/
def Check.run {σ : Type} (c : Check) (E : Env σ) (spi_chip : Nat) (z : Int)
    (w : World σ) : World σ :=
  match c with
  | .test1 => test1_SimpleWriteAndRead E spi_chip z w
  | .test2 => test2_SectorEraseAndRead E spi_chip z w
  | .test3 => test3_SectorWriteAndRead E spi_chip z w
  | .test4 => test4_SectorEraseAndRead E spi_chip z w
  | .test5 => test5_BoundaryWriteAndRead E spi_chip z w
  | .test6 => test6_WriteDirtyPageAndRead E spi_chip z w
  | .test7 => test7_WriteDirtyPageAndReadAtBoundary E spi_chip z w

/-- The two buffers the comparison loop of a check walks through, taken from
the world in which the loop runs, and the number of bytes compared. -/
def Check.compared {σ : Type} (c : Check) (w : World σ) : (Nat → Nat) × (Nat → Nat) × Nat :=
  match c with
  | .test1 | .test5 | .test6 | .test7 => (w.test_page1, w.test_page2, 256)
  | .test2 | .test3 | .test4 => (w.spimem_buffer, w.spi_test_buffer, 4096)

/-- The byte-wise comparison of check `c`, run in world `w`, meets an index at
which the two compared buffers differ. -/
def Check.Mismatch {σ : Type} (c : Check) (w : World σ) : Prop :=
  ∃ i, i < (c.compared w).2.2 ∧ (c.compared w).1 i ≠ (c.compared w).2.1 i

/-- Indicator untouched: no pin level changed and nothing was handed to
`pio_toggle_pin`. -/
def IndicatorUnchanged {σ : Type} (before after : World σ) : Prop :=
  after.toggles = before.toggles ∧ after.pins = before.pins

/-- Indicator toggled exactly once: one call `pio_toggle_pin(LED3_GPIO)` was
added to the log, the level of that pin is inverted and no other pin moved. -/
def ToggledOnce {σ : Type} (E : Env σ) (before after : World σ) : Prop :=
  after.toggles = before.toggles ++ [E.LED3] ∧
  after.pins E.LED3 = !(before.pins E.LED3) ∧
  ∀ p, p ≠ E.LED3 → after.pins p = before.pins p

/-- Requests a check issues on a chip, in order: the primitive, the chip, the
address or sector index and the length. -/
def Check.requests (c : Check) (chip : Nat) : List Call :=
  match c with
  | .test1 | .test6 | .test7 => [Call.write chip 0x00000 256, Call.read chip 0x00000 256]
  | .test2 | .test4 => [Call.erase chip 0, Call.read chip 0x00000 4096]
  | .test3 => [Call.writeBack chip 0, Call.read chip 0x00000 4096]
  | .test5 => [Call.write chip 0x0000F 256, Call.read chip 0x0000F 256]

/-- Requests of one pass of the loop: checks 1 to 7 in order, all on chip 2. -/
def iteration_calls : List Call :=
  [Call.write 2 0x00000 256, Call.read 2 0x00000 256,
   Call.erase 2 0, Call.read 2 0x00000 4096,
   Call.writeBack 2 0, Call.read 2 0x00000 4096,
   Call.erase 2 0, Call.read 2 0x00000 4096,
   Call.write 2 0x0000F 256, Call.read 2 0x0000F 256,
   Call.write 2 0x00000 256, Call.read 2 0x00000 256,
   Call.write 2 0x00000 256, Call.read 2 0x00000 256]

/-- Page that holds byte address `a`; a page is 256 bytes (glossary). -/
def page_of (a : Nat) : Nat := a / 256

/-- Byte addresses of the range `[addr, addr + size)` that lie on page `p`, in
increasing order. -/
def bytes_on_page (addr size p : Nat) : List Nat :=
  ((List.range size).map (fun k => addr + k)).filter (fun a => page_of a = p)

/-- The byte range `[addr, addr + size - 1]` crosses a page boundary: its first
and its last byte lie on different pages. -/
def CrossesPageBoundary (addr size : Nat) : Prop :=
  page_of addr ≠ page_of (addr + (size - 1))

/-- Driver `E` with a recorder in front of it.  The driver state is paired with
the list of requests received so far; every primitive appends the request it
receives, built from the arguments it is called with, and answers what `E`
answers. -/
def recording {σ : Type} (E : Env σ) : Env (List Call × σ) where
  LED3 := E.LED3
  spimem_write := fun chip addr data size d =>
    ((E.spimem_write chip addr data size d.2).1,
      (d.1 ++ [Call.write chip addr size], (E.spimem_write chip addr data size d.2).2))
  spimem_read := fun chip addr buf size d =>
    ((E.spimem_read chip addr buf size d.2).1,
      (E.spimem_read chip addr buf size d.2).2.1,
      (d.1 ++ [Call.read chip addr size], (E.spimem_read chip addr buf size d.2).2.2))
  erase_sector_on_chip := fun chip sect d =>
    ((E.erase_sector_on_chip chip sect d.2).1,
      (d.1 ++ [Call.erase chip sect], (E.erase_sector_on_chip chip sect d.2).2))
  write_sector_back_to_spimem := fun chip sect buff d =>
    ((E.write_sector_back_to_spimem chip sect buff d.2).1,
      (d.1 ++ [Call.writeBack chip sect], (E.write_sector_back_to_spimem chip sect buff d.2).2))

/-- The world without the recorder of its driver. -/
def World.forget {σ : Type} (w : World (List Call × σ)) : World σ where
  drv := w.drv.2
  i := w.i
  test_page1 := w.test_page1
  test_page2 := w.test_page2
  spi_test_buffer := w.spi_test_buffer
  spi_mem_buff := w.spi_mem_buff
  spimem_buffer := w.spimem_buffer
  spi_mem_buff_sect_num := w.spi_mem_buff_sect_num
  pins := w.pins
  calls := w.calls
  toggles := w.toggles

/-- Contents of the chips: chip number and byte address to byte. -/
abbrev Flash := Nat → Nat → Nat

/-- Reference driver over `Flash`; `LED3_GPIO` is taken to be pin 3. -/
def flashEnv : Env Flash where
  LED3 := 3
  spimem_write := fun chip addr data size m =>
    (1, fun c a => if c = chip ∧ addr ≤ a ∧ a < addr + size then data (a - addr) else m c a)
  spimem_read := fun chip addr buf size m =>
    (1, fun k => if k < size then m chip (addr + k) else buf k, m)
  erase_sector_on_chip := fun chip sect m =>
    (1, fun c a => if c = chip ∧ a / 4096 = sect then 255 else m c a)
  write_sector_back_to_spimem := fun chip sect buff m =>
    (1, fun c a => if c = chip ∧ a / 4096 = sect then buff (a % 4096) else m c a)

/-- Reference driver whose `spimem_write` fails: it reports `-1` and stores
nothing. -/
def writeFailEnv : Env Flash :=
  { flashEnv with spimem_write := fun _ _ _ _ m => (-1, m) }

/-- World in which every file-scope buffer is zero, as static storage is before
anything assigns it, over erased chips (every byte `0xFF`). -/
def zeroWorld : World Flash where
  drv := fun _ _ => 255
  i := 0
  test_page1 := fun _ => 0
  test_page2 := fun _ => 0
  spi_test_buffer := fun _ => 0
  spi_mem_buff := fun _ => 0
  spimem_buffer := fun _ => 0
  spi_mem_buff_sect_num := 0
  pins := fun _ => false
  calls := []
  toggles := []

/-- World whose file-scope `test_page1` holds the golden page 0..255 and whose
two sector buffers `spi_mem_buff` and `spimem_buffer` hold `index mod 256`. -/
def goldenWorld : World Flash :=
  { zeroWorld with
    test_page1 := fun k => k % 256
    spi_mem_buff := fun k => k % 256
    spimem_buffer := fun k => k % 256 }

/-- Frame of the task with all-zero locals. -/
def zeroFrame : Frame where
  i := 0
  test_page1 := fun _ => 0
  test_page2 := fun _ => 0

/-- A comparison loop that meets no differing index leaves the flag alone. -/
theorem for_loop_flag_of_match (a b : Nat → Nat) (n : Nat) (z : Int)
    (h : ∀ i, i < n → a i = b i) :
    for_loop (fun i z => if a i ≠ b i then 1 else z) n z = z := by
  induction n with
  | zero => rfl
  | succ k ih =>
    have hk : a k = b k := h k (Nat.lt_succ_self k)
    have ih2 := ih (fun i hi => h i (Nat.lt_succ_of_lt hi))
    simp only [for_loop, ih2, hk, ne_eq, not_true_eq_false, if_false]

/-- A comparison loop that meets a differing index ends with the flag at 1. -/
theorem for_loop_flag_of_mismatch (a b : Nat → Nat) (n : Nat) (z : Int)
    (h : ∃ i, i < n ∧ a i ≠ b i) :
    for_loop (fun i z => if a i ≠ b i then 1 else z) n z = 1 := by
  induction n with
  | zero =>
    obtain ⟨i, hi, _⟩ := h
    exact absurd hi (Nat.not_lt_zero i)
  | succ k ih =>
    by_cases hk : a k = b k
    · have hex : ∃ i, i < k ∧ a i ≠ b i := by
        obtain ⟨i, hi, hne⟩ := h
        rcases Nat.lt_succ_iff_lt_or_eq.mp hi with hlt | heq
        · exact ⟨i, hlt, hne⟩
        · subst heq
          exact absurd hk hne
      simp only [for_loop, ih hex, hk, ne_eq, not_true_eq_false, if_false]
    · simp only [for_loop, ne_eq, hk, not_false_eq_true, if_true]

/-- The flag after a comparison loop is 1 exactly when it entered as 1 or a
differing index was met. -/
theorem for_loop_flag_eq_one_iff (a b : Nat → Nat) (n : Nat) (z : Int) :
    for_loop (fun i z => if a i ≠ b i then 1 else z) n z = 1 ↔
      (z = 1 ∨ ∃ i, i < n ∧ a i ≠ b i) := by
  by_cases h : ∃ i, i < n ∧ a i ≠ b i
  · simp only [for_loop_flag_of_mismatch a b n z h, h, or_true]
  · have hall : ∀ i, i < n → a i = b i := by
      intro i hi
      by_contra hne
      exact h ⟨i, hi, hne⟩
    simp only [for_loop_flag_of_match a b n z hall, h, or_false]

/-- A status inside the range of `int` survives the detour through
`uint32_t`. -/
theorem toI32_toU32_of_int32 (r : Int) (hlo : -2147483648 ≤ r) (hhi : r < 2147483648) :
    toI32 (toU32 r) = r := by
  unfold toI32 toU32
  have hm : ((r % 4294967296).toNat : Int) = r % 4294967296 :=
    Int.toNat_of_nonneg (Int.emod_nonneg r (by norm_num))
  by_cases hneg : r < 0
  · have h1 : r % 4294967296 = r + 4294967296 := by omega
    have h2 : (r % 4294967296).toNat % 4294967296 = (r % 4294967296).toNat := by
      apply Nat.mod_eq_of_lt
      omega
    rw [h2]
    have h3 : ¬ (r % 4294967296).toNat < 2147483648 := by omega
    rw [if_neg h3, hm, h1]
    ring
  · have h1 : r % 4294967296 = r := Int.emod_eq_of_lt (by omega) (by omega)
    have h2 : (r % 4294967296).toNat % 4294967296 = (r % 4294967296).toNat := by
      apply Nat.mod_eq_of_lt
      omega
    rw [h2]
    have h3 : (r % 4294967296).toNat < 2147483648 := by omega
    rw [if_pos h3, hm, h1]

/-- The error status survives the detour through `uint32_t`. -/
theorem toI32_toU32_neg_one : toI32 (toU32 (-1)) = -1 :=
  toI32_toU32_of_int32 (-1) (by norm_num) (by norm_num)

/-- Shape of the final conditional of every check. -/
theorem signal_toggles {σ : Type} (E : Env σ) (l : Locals) (before w : World σ)
    (hlog : w.toggles = before.toggles) (hpins : w.pins = before.pins)
    (h : l.x ≠ -1 ∨ l.y ≠ -1 ∨ l.z ≠ 1) :
    ToggledOnce E before
      (if l.x ≠ -1 ∨ l.y ≠ -1 ∨ l.z ≠ 1 then pio_toggle_pin E.LED3 w else w) := by
  rw [if_pos h]
  refine ⟨?_, ?_, ?_⟩
  · simp only [pio_toggle_pin, hlog]
  · simp only [pio_toggle_pin, hpins, if_true]
  · intro p hp
    simp only [pio_toggle_pin, hpins, hp, if_false]

/-- A toggle and no toggle cannot both describe the same pair of worlds. -/
theorem not_unchanged_of_toggled {σ : Type} (E : Env σ) (before after : World σ)
    (h : ToggledOnce E before after) : ¬ IndicatorUnchanged before after := by
  intro hu
  have h1 := h.1
  rw [hu.1] at h1
  have := congrArg List.length h1
  simp at this

/-! ## Facts shared by the seven checks -/

/-- Every check is its body followed by the same conditional toggle. -/
theorem Check.run_eq {σ : Type} (c : Check) (E : Env σ) (chip : Nat) (z : Int) (w : World σ) :
    c.run E chip z w =
      if (c.body E chip z w).1.x ≠ -1 ∨ (c.body E chip z w).1.y ≠ -1 ∨
          (c.body E chip z w).1.z ≠ 1
      then pio_toggle_pin E.LED3 (c.body E chip z w).2 else (c.body E chip z w).2 := by
  cases c <;> rfl

/-- The body of a check never touches the indicator. -/
theorem Check.body_indicator {σ : Type} (c : Check) (E : Env σ) (chip : Nat) (z : Int)
    (w : World σ) :
    (c.body E chip z w).2.toggles = w.toggles ∧ (c.body E chip z w).2.pins = w.pins := by
  cases c <;> exact ⟨rfl, rfl⟩

/-- The flag `z` after the body is what the comparison loop makes of the
initial `z`, over the buffers of the world the body ends in. -/
theorem Check.body_z {σ : Type} (c : Check) (E : Env σ) (chip : Nat) (z : Int) (w : World σ) :
    (c.body E chip z w).1.z =
      for_loop
        (fun i flag => if (c.compared (c.body E chip z w).2).1 i ≠
          (c.compared (c.body E chip z w).2).2.1 i then 1 else flag)
        (c.compared (c.body E chip z w).2).2.2 z := by
  cases c <;> rfl

/-- The flag `z` is 1 after the body exactly when it was 1 on entry or the
comparison met a mismatch. -/
theorem Check.body_z_eq_one_iff {σ : Type} (c : Check) (E : Env σ) (chip : Nat) (z : Int)
    (w : World σ) :
    (c.body E chip z w).1.z = 1 ↔ (z = 1 ∨ c.Mismatch (c.body E chip z w).2) := by
  rw [Check.body_z]
  exact for_loop_flag_eq_one_iff (c.compared (c.body E chip z w).2).1
    (c.compared (c.body E chip z w).2).2.1 (c.compared (c.body E chip z w).2).2.2 z

/-- The status `x` of the page checks is the value `spimem_write` returned. -/
theorem page_check_body_x {σ : Type} (E : Env σ) (chip addr : Nat) (z : Int) (w : World σ) :
    (page_check_body E chip addr z w).1.x =
      (E.spimem_write chip addr w.test_page1 256 w.drv).1 := rfl

/-- The status `x` of the erase checks is the value `erase_sector_on_chip`
returned, taken through `uint32_t` and back to `int`. -/
theorem sector_erase_body_x {σ : Type} (E : Env σ) (chip : Nat) (z : Int) (w : World σ) :
    (sector_erase_body E chip z w).1.x =
      toI32 (toU32 (E.erase_sector_on_chip chip 0 w.drv).1) := rfl

/-- The status `x` of check 3 is the value `write_sector_back_to_spimem`
returned, taken through `uint32_t` and back to `int`. -/
theorem test3_body_x {σ : Type} (E : Env σ) (chip : Nat) (z : Int) (w : World σ) :
    (test3_SectorWriteAndRead_body E chip z w).1.x =
      toI32 (toU32 (E.write_sector_back_to_spimem chip 0 w.spi_mem_buff w.drv).1) := rfl

/-- A check whose final condition holds toggles the indicator exactly once. -/
theorem Check.run_toggles {σ : Type} (c : Check) (E : Env σ) (chip : Nat) (z : Int)
    (w : World σ)
    (h : (c.body E chip z w).1.x ≠ -1 ∨ (c.body E chip z w).1.y ≠ -1 ∨
      (c.body E chip z w).1.z ≠ 1) :
    ToggledOnce E w (c.run E chip z w) := by
  rw [Check.run_eq]
  exact signal_toggles E _ w _ (c.body_indicator E chip z w).1 (c.body_indicator E chip z w).2 h

/-- The final conditional of a check changes nothing but the indicator. -/
theorem Check.run_fields {σ : Type} (c : Check) (E : Env σ) (chip : Nat) (z : Int)
    (w : World σ) :
    (c.run E chip z w).drv = (c.body E chip z w).2.drv ∧
    (c.run E chip z w).calls = (c.body E chip z w).2.calls ∧
    (c.run E chip z w).test_page1 = (c.body E chip z w).2.test_page1 ∧
    (c.run E chip z w).test_page2 = (c.body E chip z w).2.test_page2 ∧
    (c.run E chip z w).spi_test_buffer = (c.body E chip z w).2.spi_test_buffer ∧
    (c.run E chip z w).spi_mem_buff = (c.body E chip z w).2.spi_mem_buff ∧
    (c.run E chip z w).spimem_buffer = (c.body E chip z w).2.spimem_buffer := by
  rw [Check.run_eq]
  split <;> exact ⟨rfl, rfl, rfl, rfl, rfl, rfl, rfl⟩

/-! ## Result contract of the checks -/

/-- C1, evaluated where it fails: on a driver whose `spimem_write` reports -1,
with the golden page in `test_page1` and an erased chip, check 1 receives
`x = -1`, its comparison meets a mismatch and ends with `z = 1`, and the check
still calls `pio_toggle_pin(LED3_GPIO)`, because the read status is not -1. -/
theorem test1_toggles_despite_write_error :
    (test1_SimpleWriteAndRead_body writeFailEnv 2 0 goldenWorld).1.x = -1 ∧
    (test1_SimpleWriteAndRead_body writeFailEnv 2 0 goldenWorld).1.y = 1 ∧
    (test1_SimpleWriteAndRead_body writeFailEnv 2 0 goldenWorld).1.z = 1 ∧
    Check.test1.Mismatch (test1_SimpleWriteAndRead_body writeFailEnv 2 0 goldenWorld).2 ∧
    ToggledOnce writeFailEnv goldenWorld (test1_SimpleWriteAndRead writeFailEnv 2 0 goldenWorld) ∧
    ¬ IndicatorUnchanged goldenWorld (test1_SimpleWriteAndRead writeFailEnv 2 0 goldenWorld) := by
  have hm : Check.test1.Mismatch (test1_SimpleWriteAndRead_body writeFailEnv 2 0 goldenWorld).2 := by
    refine ⟨1, by decide, ?_⟩
    simp [Check.compared, test1_SimpleWriteAndRead_body, page_check_body, writeFailEnv,
      flashEnv, goldenWorld, zeroWorld]
  have hz : (test1_SimpleWriteAndRead_body writeFailEnv 2 0 goldenWorld).1.z = 1 :=
    (Check.test1.body_z_eq_one_iff writeFailEnv 2 0 goldenWorld).mpr (Or.inr hm)
  have ht : ToggledOnce writeFailEnv goldenWorld
      (test1_SimpleWriteAndRead writeFailEnv 2 0 goldenWorld) :=
    Check.test1.run_toggles writeFailEnv 2 0 goldenWorld (Or.inr (Or.inl (by decide)))
  exact ⟨rfl, rfl, hz, hm, ht, not_unchanged_of_toggled _ _ _ ht⟩

/-! ## Initialisation of the task -/

/-- Effect of the first initialisation loop after `n` rounds. -/
theorem init_loop_spi_mem_buff {σ : Type} (n : Nat) (w : World σ) :
    for_loop
      (fun i (w : World σ) => { w with spi_mem_buff := store w.spi_mem_buff i ((i % 256) % 256) })
      n w =
    { w with spi_mem_buff := fun k => if k < n then k % 256 else w.spi_mem_buff k } := by
  induction n with
  | zero => simp [for_loop]
  | succ m ih =>
    simp only [for_loop, ih]
    congr 1
    funext k
    unfold store
    by_cases hk : k = m
    · subst hk
      simp
    · by_cases hlt : k < m
      · have : k < m + 1 := Nat.lt_succ_of_lt hlt
        simp [hk, hlt, this]
      · have : ¬ k < m + 1 := by omega
        simp [hk, hlt, this]

/-- Effect of the second initialisation loop after `n` rounds. -/
theorem init_loop_test_page1 (n : Nat) (f : Frame) :
    for_loop (fun i (f : Frame) => { f with test_page1 := store f.test_page1 i (i % 256) }) n f =
    { f with test_page1 := fun k => if k < n then k % 256 else f.test_page1 k } := by
  induction n with
  | zero => simp [for_loop]
  | succ m ih =>
    simp only [for_loop, ih]
    congr 1
    funext k
    unfold store
    by_cases hk : k = m
    · subst hk
      simp
    · by_cases hlt : k < m
      · have : k < m + 1 := Nat.lt_succ_of_lt hlt
        simp [hk, hlt, this]
      · have : ¬ k < m + 1 := by omega
        simp [hk, hlt, this]

/-- Effect of the third initialisation loop after `n` rounds. -/
theorem init_loop_test_page2 (n : Nat) (f : Frame) :
    for_loop (fun i (f : Frame) => { f with test_page2 := store f.test_page2 i 0 }) n f =
    { f with test_page2 := fun k => if k < n then 0 else f.test_page2 k } := by
  induction n with
  | zero => simp [for_loop]
  | succ m ih =>
    simp only [for_loop, ih]
    congr 1
    funext k
    unfold store
    by_cases hk : k = m
    · subst hk
      simp
    · by_cases hlt : k < m
      · have : k < m + 1 := Nat.lt_succ_of_lt hlt
        simp [hk, hlt, this]
      · have : ¬ k < m + 1 := by omega
        simp [hk, hlt, this]

/-- The initialisation in closed form: `spi_mem_buff` gets `index mod 256` on
its 4096 bytes, the task-local pages get 0..255 and zeros, and no other
file-scope object is assigned. -/
theorem prvspimemtestTask_init_eq {σ : Type} (f : Frame) (w : World σ) :
    prvspimemtestTask_init f w =
      ({ i := 256
         test_page1 := fun k => if k < 256 then k % 256 else f.test_page1 k
         test_page2 := fun k => if k < 256 then 0 else f.test_page2 k },
       { w with spi_mem_buff := fun k => if k < 4096 then k % 256 else w.spi_mem_buff k }) := by
  unfold prvspimemtestTask_init
  simp only [init_loop_spi_mem_buff, init_loop_test_page1, init_loop_test_page2]

/-- After the initialisation `spi_mem_buff` holds `index mod 256` at each of
its 4096 indices. -/
theorem init_spi_mem_buff {σ : Type} (f : Frame) (w : World σ) (i : Nat) (hi : i < 4096) :
    (prvspimemtestTask_init f w).2.spi_mem_buff i = i % 256 := by
  rw [prvspimemtestTask_init_eq]
  simp [hi]

/-- After the initialisation the local `test_page1` of the task holds `i` at
each index `i` below 256. -/
theorem init_local_test_page1 {σ : Type} (f : Frame) (w : World σ) (i : Nat) (hi : i < 256) :
    (prvspimemtestTask_init f w).1.test_page1 i = i := by
  rw [prvspimemtestTask_init_eq]
  simp [hi, Nat.mod_eq_of_lt hi]

/-- The initialisation assigns none of the file-scope objects `test_page1`,
`test_page2`, `spi_test_buffer` and `spimem_buffer`. -/
theorem init_file_scope_kept {σ : Type} (f : Frame) (w : World σ) :
    (prvspimemtestTask_init f w).2.test_page1 = w.test_page1 ∧
    (prvspimemtestTask_init f w).2.test_page2 = w.test_page2 ∧
    (prvspimemtestTask_init f w).2.spi_test_buffer = w.spi_test_buffer ∧
    (prvspimemtestTask_init f w).2.spimem_buffer = w.spimem_buffer := by
  rw [prvspimemtestTask_init_eq]
  exact ⟨rfl, rfl, rfl, rfl⟩

/-- C9, evaluated where it fails: started with all-zero static storage, the
initialisation leaves `index mod 256` in `spi_mem_buff` (1 at index 1) while
`spimem_buffer`, the buffer checks 2, 3 and 4 compare the read-back sector
against, still holds 0 at index 1. -/
theorem init_leaves_spimem_buffer_unset :
    (prvspimemtestTask_init zeroFrame zeroWorld).2.spi_mem_buff 1 = 1 % 256 ∧
    (prvspimemtestTask_init zeroFrame zeroWorld).2.spimem_buffer 1 = 0 ∧
    (Check.test2.compared (prvspimemtestTask_init zeroFrame zeroWorld).2).1 1 ≠ 1 % 256 := by
  have h := init_file_scope_kept zeroFrame zeroWorld
  refine ⟨init_spi_mem_buff zeroFrame zeroWorld 1 (by norm_num), ?_, ?_⟩
  · rw [h.2.2.2]
    rfl
  · simp only [Check.compared]
    rw [h.2.2.2]
    decide

/-! ## Check 1: simple write and read -/

/-- Check 1 on any driver whose two calls succeed and whose read hands back the
256 bytes that were handed to the write: the requests are a 256-byte write and
a 256-byte read at address 0 of the chip, the comparison meets no mismatch and
the indicator is toggled once. -/
theorem test1_read_back_matches {σ : Type} (E : Env σ) (chip : Nat) (z : Int) (w : World σ)
    (_hx : (E.spimem_write chip 0 w.test_page1 256 w.drv).1 ≠ -1)
    (hy : (E.spimem_read chip 0 w.test_page2 256
      (E.spimem_write chip 0 w.test_page1 256 w.drv).2).1 ≠ -1)
    (hback : ∀ k, k < 256 →
      (E.spimem_read chip 0 w.test_page2 256
        (E.spimem_write chip 0 w.test_page1 256 w.drv).2).2.1 k = w.test_page1 k) :
    (test1_SimpleWriteAndRead E chip z w).calls =
      w.calls ++ [Call.write chip 0 256, Call.read chip 0 256] ∧
    ¬ Check.test1.Mismatch (test1_SimpleWriteAndRead_body E chip z w).2 ∧
    ToggledOnce E w (test1_SimpleWriteAndRead E chip z w) := by
  refine ⟨?_, ?_, ?_⟩
  · refine ((Check.test1.run_fields E chip z w).2.1).trans ?_
    simp [Check.body, test1_SimpleWriteAndRead_body, page_check_body]
  · rintro ⟨i, hi, hne⟩
    exact hne (hback i hi).symm
  · exact Check.test1.run_toggles E chip z w (Or.inr (Or.inl hy))

/-- The reference flash chip meets the assumptions of
`test1_read_back_matches`. -/
theorem test1_read_back_matches_on_flash :
    ¬ Check.test1.Mismatch (test1_SimpleWriteAndRead_body flashEnv 2 0 goldenWorld).2 ∧
    ToggledOnce flashEnv goldenWorld (test1_SimpleWriteAndRead flashEnv 2 0 goldenWorld) :=
  (test1_read_back_matches flashEnv 2 0 goldenWorld (by decide) (by decide)
    (by intro k hk; simp [flashEnv, hk])).2

/-- C3, evaluated where it fails: started with all-zero static storage and
erased chips, the initialisation puts the golden bytes into the local
`test_page1` of the task (1 at index 1), the file-scope `test_page1` that check
1 hands to `spimem_write` still holds 0 at index 1, and after check 1 the byte
at address 1 of chip 2 is 0, not 1. -/
theorem test1_writes_unset_page :
    (prvspimemtestTask_init zeroFrame zeroWorld).1.test_page1 1 = 1 ∧
    (prvspimemtestTask_init zeroFrame zeroWorld).2.test_page1 1 = 0 ∧
    zeroWorld.drv 2 1 = 255 ∧
    (test1_SimpleWriteAndRead flashEnv 2 0 (prvspimemtestTask_init zeroFrame zeroWorld).2).drv 2 1
      = 0 := by
  refine ⟨init_local_test_page1 zeroFrame zeroWorld 1 (by norm_num), ?_, rfl, ?_⟩
  · rw [(init_file_scope_kept zeroFrame zeroWorld).1]
    rfl
  · refine (congrFun (congrFun (Check.test1.run_fields flashEnv 2 0 _).1 2) 1).trans ?_
    rw [prvspimemtestTask_init_eq]
    simp [Check.body, test1_SimpleWriteAndRead_body, page_check_body, flashEnv, zeroWorld]

/-! ## Check 2: sector erase and read -/

/-- On the reference flash chip check 2 reads back `0xFF` at each of the 4096
indices, whatever the file-scope buffers hold. -/
theorem test2_reads_erased_bytes (z : Int) (w : World Flash) (i : Nat) (hi : i < 4096) :
    (test2_SectorEraseAndRead_body flashEnv 2 z w).2.spi_test_buffer i = 255 := by
  simp [test2_SectorEraseAndRead_body, sector_erase_body, flashEnv, hi, Nat.div_eq_of_lt hi]

/-- C4, evaluated where it fails: on the reference flash chip, whose erase sets
every byte of the sector to `0xFF`, with `index mod 256` in `spimem_buffer`,
check 2 issues an erase of sector 0 and a 4096-byte read at address 0, every
one of the 4096 bytes read back is `0xFF`, and the comparison still meets a
mismatch (index 0 holds 0 in `spimem_buffer`) and sets `z` to 1.  The same
happens when `spimem_buffer` is all zero. -/
theorem test2_flags_erased_sector :
    (test2_SectorEraseAndRead_body flashEnv 2 0 goldenWorld).2.calls =
      [Call.erase 2 0, Call.read 2 0 4096] ∧
    (∀ i, i < 4096 →
      (test2_SectorEraseAndRead_body flashEnv 2 0 goldenWorld).2.spi_test_buffer i = 255) ∧
    Check.test2.Mismatch (test2_SectorEraseAndRead_body flashEnv 2 0 goldenWorld).2 ∧
    (test2_SectorEraseAndRead_body flashEnv 2 0 goldenWorld).1.z = 1 ∧
    (∀ i, i < 4096 →
      (test2_SectorEraseAndRead_body flashEnv 2 0 zeroWorld).2.spi_test_buffer i = 255) ∧
    Check.test2.Mismatch (test2_SectorEraseAndRead_body flashEnv 2 0 zeroWorld).2 := by
  have hm : Check.test2.Mismatch (test2_SectorEraseAndRead_body flashEnv 2 0 goldenWorld).2 := by
    refine ⟨0, by decide, ?_⟩
    simp only [Check.compared]
    rw [test2_reads_erased_bytes 0 goldenWorld 0 (by norm_num)]
    decide
  have hm0 : Check.test2.Mismatch (test2_SectorEraseAndRead_body flashEnv 2 0 zeroWorld).2 := by
    refine ⟨0, by decide, ?_⟩
    simp only [Check.compared]
    rw [test2_reads_erased_bytes 0 zeroWorld 0 (by norm_num)]
    decide
  exact ⟨rfl, test2_reads_erased_bytes 0 goldenWorld, hm,
    (Check.test2.body_z_eq_one_iff flashEnv 2 0 goldenWorld).mpr (Or.inr hm),
    test2_reads_erased_bytes 0 zeroWorld, hm0⟩

/-! ## Requests issued by the checks and by the loop -/

/-- Every check appends its fixed requests to the log, whatever the driver
answers and whatever `z` holds on entry. -/
theorem Check.run_calls {σ : Type} (c : Check) (E : Env σ) (chip : Nat) (z : Int)
    (w : World σ) :
    (c.run E chip z w).calls = w.calls ++ c.requests chip := by
  refine ((c.run_fields E chip z w).2.1).trans ?_
  cases c <;>
    simp [Check.body, Check.requests, test1_SimpleWriteAndRead_body,
      test2_SectorEraseAndRead_body, test3_SectorWriteAndRead_body,
      test4_SectorEraseAndRead_body, test5_BoundaryWriteAndRead_body,
      test6_WriteDirtyPageAndRead_body, test7_WriteDirtyPageAndReadAtBoundary_body,
      page_check_body, sector_erase_body]

/-- One pass of the loop is the seven checks in order on chip 2. -/
theorem loop_body_eq {σ : Type} (E : Env σ) (z : Nat → Int) (w : World σ) :
    loop_body E z w =
      Check.test7.run E 2 (z 7) (Check.test6.run E 2 (z 6) (Check.test5.run E 2 (z 5)
        (Check.test4.run E 2 (z 4) (Check.test3.run E 2 (z 3) (Check.test2.run E 2 (z 2)
          (Check.test1.run E 2 (z 1) w)))))) := rfl

/-- Requests logged when check 5 of a pass has returned. -/
theorem calls_after_check5 {σ : Type} (E : Env σ) (z : Nat → Int) (w : World σ) :
    (world_at_check6 E z w).calls =
      (w.calls ++ iteration_calls.take 8) ++
        Call.write 2 0x0000F 256 :: [Call.read 2 0x0000F 256] := by
  have h : world_at_check6 E z w =
      Check.test5.run E 2 (z 5) (Check.test4.run E 2 (z 4) (Check.test3.run E 2 (z 3)
        (Check.test2.run E 2 (z 2) (Check.test1.run E 2 (z 1) w)))) := rfl
  rw [h]
  simp [Check.run_calls, Check.requests, iteration_calls]

/-- Requests logged by one pass of the loop. -/
theorem loop_body_calls_eq {σ : Type} (E : Env σ) (z : Nat → Int) (w : World σ) :
    (loop_body E z w).calls = w.calls ++ iteration_calls := by
  rw [loop_body_eq]
  simp [Check.run_calls, Check.requests, iteration_calls]

/-! ## The requests as the driver receives them -/

/-- With the recorder in front, the body of a check computes the same locals
and, apart from the record, the same world. -/
theorem Check.body_recording {σ : Type} (c : Check) (E : Env σ) (chip : Nat) (z : Int)
    (w : World (List Call × σ)) :
    (c.body (recording E) chip z w).1 = (c.body E chip z w.forget).1 ∧
    (c.body (recording E) chip z w).2.forget = (c.body E chip z w.forget).2 := by
  cases c <;> exact ⟨rfl, rfl⟩

/-- With the recorder in front a check ends, apart from the record, in the
world it ends in on the bare driver. -/
theorem Check.run_recording {σ : Type} (c : Check) (E : Env σ) (chip : Nat) (z : Int)
    (w : World (List Call × σ)) :
    (c.run (recording E) chip z w).forget = c.run E chip z w.forget := by
  have hb := c.body_recording E chip z w
  rw [Check.run_eq, Check.run_eq, hb.1]
  split
  · rw [← hb.2]
    rfl
  · exact hb.2

/-- Requests the driver receives from a check: the fixed requests of that
check, whatever the driver answers and whatever `z` holds on entry. -/
theorem Check.run_received {σ : Type} (c : Check) (E : Env σ) (chip : Nat) (z : Int)
    (w : World (List Call × σ)) :
    (c.run (recording E) chip z w).drv.1 = w.drv.1 ++ c.requests chip := by
  rw [(c.run_fields (recording E) chip z w).1]
  cases c <;>
    simp [Check.body, Check.requests, test1_SimpleWriteAndRead_body,
      test2_SectorEraseAndRead_body, test3_SectorWriteAndRead_body,
      test4_SectorEraseAndRead_body, test5_BoundaryWriteAndRead_body,
      test6_WriteDirtyPageAndRead_body, test7_WriteDirtyPageAndReadAtBoundary_body,
      page_check_body, sector_erase_body, recording]

/-- With the recorder in front a pass ends, apart from the record, in the world
it ends in on the bare driver. -/
theorem loop_body_recording {σ : Type} (E : Env σ) (z : Nat → Int)
    (w : World (List Call × σ)) :
    (loop_body (recording E) z w).forget = loop_body E z w.forget := by
  rw [loop_body_eq, loop_body_eq]
  simp only [Check.run_recording]

/-- Requests the driver receives during one pass of the loop. -/
theorem loop_body_received {σ : Type} (E : Env σ) (z : Nat → Int)
    (w : World (List Call × σ)) :
    (loop_body (recording E) z w).drv.1 = w.drv.1 ++ iteration_calls := by
  rw [loop_body_eq]
  simp [Check.run_received, Check.requests, iteration_calls]

/-- C7: with a recorder in front of an arbitrary driver `E`, the driver
receives during one pass of the loop exactly the fixed list `iteration_calls`:
the requests of checks 1, 2, 3, 4, 5, 6, 7 in that order, each once and on
chip 2, every check contributing its own fixed requests.  The list does not
depend on the statuses and data `E` returns nor on the flags `z`, so two passes
started after the same record end with the same record; and the recorder
changes nothing else, the pass ends in the world it ends in on `E` itself. -/
theorem loop_pass_requests_fixed {σ τ : Type} (E : Env σ) (z : Nat → Int)
    (w : World (List Call × σ)) (F : Env τ) (y : Nat → Int) (v : World (List Call × τ)) :
    (loop_body (recording E) z w).drv.1 = w.drv.1 ++ iteration_calls ∧
    (loop_body (recording E) z w).forget = loop_body E z w.forget ∧
    (∀ (c : Check) (chip : Nat) (z0 : Int) (u : World (List Call × σ)),
      (c.run (recording E) chip z0 u).drv.1 = u.drv.1 ++ c.requests chip ∧
      (c.run (recording E) chip z0 u).forget = c.run E chip z0 u.forget) ∧
    iteration_calls =
      Check.test1.requests 2 ++ Check.test2.requests 2 ++ Check.test3.requests 2 ++
        Check.test4.requests 2 ++ Check.test5.requests 2 ++ Check.test6.requests 2 ++
        Check.test7.requests 2 ∧
    (v.drv.1 = w.drv.1 →
      (loop_body (recording F) y v).drv.1 = (loop_body (recording E) z w).drv.1) ∧
    loop_body E z w.forget =
      test7_WriteDirtyPageAndReadAtBoundary E 2 (z 7)
        (test6_WriteDirtyPageAndRead E 2 (z 6)
          (test5_BoundaryWriteAndRead E 2 (z 5)
            (test4_SectorEraseAndRead E 2 (z 4)
              (test3_SectorWriteAndRead E 2 (z 3)
                (test2_SectorEraseAndRead E 2 (z 2)
                  (test1_SimpleWriteAndRead E 2 (z 1) w.forget)))))) ∧
    (loop_body E z w.forget).calls = w.forget.calls ++ iteration_calls := by
  refine ⟨loop_body_received E z w, loop_body_recording E z w, ?_, rfl, ?_, rfl,
    loop_body_calls_eq E z w.forget⟩
  · intro c chip z0 u
    exact ⟨c.run_received E chip z0 u, c.run_recording E chip z0 u⟩
  · intro h
    rw [loop_body_received, loop_body_received, h]

/-! ## Page arithmetic of checks 5 and 7 -/

set_option maxRecDepth 8000 in
/-- The bytes of `0x0000F .. 0x0010E` on page 0, by evaluation. -/
theorem bytes_on_page_test5_0 : bytes_on_page 0x0000F 256 0 = List.range' 0x0F 241 := by
  decide

set_option maxRecDepth 8000 in
/-- The bytes of `0x0000F .. 0x0010E` on page 1, by evaluation. -/
theorem bytes_on_page_test5_1 : bytes_on_page 0x0000F 256 1 = List.range' 0x100 15 := by
  decide

/-- On the recorded reference flash chip a page check stores the 256 bytes of
`test_page1` at `addr`, changes no other byte of the chips, and reads the same
256 bytes back into `test_page2`. -/
theorem page_check_on_flash (chip addr : Nat) (z : Int) (v : World (List Call × Flash)) :
    (∀ k, k < 256 →
      (page_check_body (recording flashEnv) chip addr z v).2.drv.2 chip (addr + k) =
        v.test_page1 k) ∧
    (∀ c a, (c ≠ chip ∨ a < addr ∨ addr + 256 ≤ a) →
      (page_check_body (recording flashEnv) chip addr z v).2.drv.2 c a = v.drv.2 c a) ∧
    (∀ k, k < 256 →
      (page_check_body (recording flashEnv) chip addr z v).2.test_page2 k = v.test_page1 k) := by
  refine ⟨?_, ?_, ?_⟩
  · intro k hk
    simp [page_check_body, recording, flashEnv, hk]
  · intro c a h
    have hn : ¬ (c = chip ∧ addr ≤ a ∧ a < addr + 256) := by
      rintro ⟨h1, h2, h3⟩
      rcases h with h | h | h
      · exact h h1
      · omega
      · omega
    simp [page_check_body, recording, flashEnv, hn]
  · intro k hk
    simp [page_check_body, recording, flashEnv, hk]

/-- C6: check 5 issues its write and its read at address `0x0000F` with length
256: with a recorder in front of an arbitrary driver, the driver receives from
check 5 exactly `spimem_write(chip, 0x0000F, .., 256)` followed by
`spimem_read(chip, 0x0000F, .., 256)`, and on the reference flash chip the 256
bytes of `test_page1` land at `0x0000F .. 0x0010E` and nowhere else.  Of these
bytes the 241 bytes `0x0F .. 0xFF` lie on page 0, the 15 bytes
`0x100 .. 0x10E` lie on page 1, and none lies on any other page. -/
theorem test5_spans_pages_0_and_1 {σ : Type} (E : Env σ) (chip : Nat) (z : Int)
    (w : World (List Call × σ)) (v : World (List Call × Flash)) :
    (test5_BoundaryWriteAndRead (recording E) chip z w).drv.1 =
      w.drv.1 ++ [Call.write chip 0x0000F 256, Call.read chip 0x0000F 256] ∧
    (test5_BoundaryWriteAndRead (recording E) chip z w).forget =
      test5_BoundaryWriteAndRead E chip z w.forget ∧
    (∀ k, k < 256 →
      (test5_BoundaryWriteAndRead (recording flashEnv) chip z v).drv.2 chip (0x0000F + k) =
        v.test_page1 k) ∧
    (∀ a, (a < 0x0000F ∨ 0x0010E < a) →
      (test5_BoundaryWriteAndRead (recording flashEnv) chip z v).drv.2 chip a =
        v.drv.2 chip a) ∧
    (test5_BoundaryWriteAndRead E chip z w.forget).calls =
      w.forget.calls ++ [Call.write chip 0x0000F 256, Call.read chip 0x0000F 256] ∧
    bytes_on_page 0x0000F 256 0 = List.range' 0x0F 241 ∧
    (bytes_on_page 0x0000F 256 0).length = 241 ∧
    bytes_on_page 0x0000F 256 1 = List.range' 0x100 15 ∧
    (bytes_on_page 0x0000F 256 1).length = 15 ∧
    (∀ p, 2 ≤ p → bytes_on_page 0x0000F 256 p = []) ∧
    CrossesPageBoundary 0x0000F 256 := by
  have h0 : bytes_on_page 0x0000F 256 0 = List.range' 0x0F 241 := bytes_on_page_test5_0
  have h1 : bytes_on_page 0x0000F 256 1 = List.range' 0x100 15 := bytes_on_page_test5_1
  have hd := (Check.test5.run_fields (recording flashEnv) chip z v).1
  have hf := page_check_on_flash chip 0x0000F z v
  refine ⟨Check.test5.run_received E chip z w, Check.test5.run_recording E chip z w, ?_, ?_,
    Check.test5.run_calls E chip z w.forget, h0, ?_, h1, ?_, ?_, ?_⟩
  · intro k hk
    exact (congrArg (fun d => d.2 chip (0x0000F + k)) hd).trans (hf.1 k hk)
  · intro a ha
    refine (congrArg (fun d => d.2 chip a) hd).trans (hf.2.1 chip a ?_)
    rcases ha with h | h
    · exact Or.inr (Or.inl h)
    · exact Or.inr (Or.inr (by omega))
  · rw [h0]
    rfl
  · rw [h1]
    rfl
  · intro p hp
    unfold bytes_on_page
    rw [List.filter_eq_nil_iff]
    intro a ha
    rw [List.mem_map] at ha
    obtain ⟨k, hk, rfl⟩ := ha
    rw [List.mem_range] at hk
    have : page_of (15 + k) < 2 := by
      unfold page_of
      omega
    simp only [decide_eq_true_eq]
    omega
  · unfold CrossesPageBoundary page_of
    decide

/-- C5, evaluated on the code: check 7 issues its 256-byte write and read at
address `0x00000`; the bytes `0x00000 .. 0x000FF` all lie on page 0, so the
range does not cross a page boundary, unlike the range of check 5. -/
theorem test7_stays_on_page_0 {σ : Type} (E : Env σ) (chip : Nat) (z : Int) (w : World σ) :
    (test7_WriteDirtyPageAndReadAtBoundary E chip z w).calls =
      w.calls ++ [Call.write chip 0x00000 256, Call.read chip 0x00000 256] ∧
    page_of 0x00000 = page_of (0x00000 + 255) ∧
    ¬ CrossesPageBoundary 0x00000 256 ∧
    (∀ a, a < 256 → page_of (0x00000 + a) = 0) ∧
    CrossesPageBoundary 0x0000F 256 := by
  refine ⟨Check.test7.run_calls E chip z w, by decide, ?_, ?_, ?_⟩
  · unfold CrossesPageBoundary page_of
    decide
  · intro a ha
    unfold page_of
    omega
  · unfold CrossesPageBoundary page_of
    decide

/-! ## Targets of the writes of checks 6 and 7 -/

end SpiMemTest
